import Mathlib

/-!
Verification of the `callGateway` orchestrator from the gateway RPC transport
(`src/gateway/call.ts`, exported as `callGateway`).

The orchestrator wraps one `GatewayClient` lifecycle into a single promise:
it arms a timer for `timeoutMs`, wires two hooks (`onHelloOk`, `onClose`),
starts the client, and settles the promise exactly once via a guarded local
`stop` closure.  We embed the body of the promise executor as a state machine:
the mutable captured variables (`settled`, `ignoreClose`, the live timer, the
number of `client.stop()` calls made so far, and the eventual outcome) form the
state, and each asynchronous callback of the source (the timer firing, the
request promise resolving or rejecting inside `onHelloOk`, and `onClose`)
becomes a step on that state.  Since the source runs on a single-threaded
event loop, an execution is a finite sequence of timestamped callback events,
and the behaviour of one invocation is a fold of the step function over that
sequence.
-/

namespace Moltbot

/-- Errors with which the `callGateway` promise can reject, one constructor per
`reject` site in the source: `new Error("gateway timeout")` in the timer
callback, ``new Error(`gateway closed (${code}): ${reason}`)`` in `onClose`,
and the propagated rejection `err` of `client.request` in `onHelloOk`. -/
inductive GwError where
  | timeout : GwError
  | closed (code : Nat) (reason : String) : GwError
  | rejected (msg : String) : GwError
deriving DecidableEq, Repr

/-- The mutable state captured by the promise executor of `callGateway`:
`settled` and `ignoreClose` are the two `let` booleans; `timerCleared` records
whether `clearTimeout(timer)` has run; `clientStops` counts the explicit
`client.stop()` calls made so far; `outcome` is the settled value or error
(`none` while pending); `settleTime` is the event-loop time at which the
promise settled. -/
structure GwState (V : Type) where
  settled : Bool
  ignoreClose : Bool
  timerCleared : Bool
  clientStops : Nat
  outcome : Option (Except GwError V)
  settleTime : Option Nat

/-- The initial state of one invocation: `settled = false`,
`ignoreClose = false`, timer armed and not cleared, no `client.stop()` calls
yet, promise pending. -/
def initState (V : Type) : GwState V :=
  { settled := false
    ignoreClose := false
    timerCleared := false
    clientStops := 0
    outcome := none
    settleTime := none }

/-- The local `stop(err?, value?)` closure of `callGateway`: if already
settled it does nothing; otherwise it sets `settled`, clears the timer, and
resolves or rejects the promise (here: records the outcome and the settlement
time `t`). -/
def stopWith {V : Type} (t : Nat) (s : GwState V) (r : Except GwError V) :
    GwState V :=
  if s.settled then s
  else
    { s with
      settled := true
      timerCleared := true
      outcome := some r
      settleTime := some t }

/-- The `setTimeout` callback of `callGateway`: it can only run if the timer
was not cleared; its body sets `ignoreClose = true`, calls `client.stop()`,
then calls `stop(new Error("gateway timeout"))`. -/
def onTimeout {V : Type} (t : Nat) (s : GwState V) : GwState V :=
  if s.timerCleared then s
  else
    stopWith t
      { s with ignoreClose := true, clientStops := s.clientStops + 1 }
      (Except.error GwError.timeout)

/-- The resolution branch of the `onHelloOk` hook: after
`await client.request(...)` succeeds with `result`, the source sets
`ignoreClose = true`, calls `stop(undefined, result)`, then calls
`client.stop()` (in that order). -/
def onHelloOkResolved {V : Type} (t : Nat) (s : GwState V) (v : V) :
    GwState V :=
  let s1 := { s with ignoreClose := true }
  let s2 := stopWith t s1 (Except.ok v)
  { s2 with clientStops := s2.clientStops + 1 }

/-- The rejection branch (`catch`) of the `onHelloOk` hook: the source sets
`ignoreClose = true`, calls `client.stop()`, then calls `stop(err)` with the
caught error. -/
def onHelloOkRejected {V : Type} (t : Nat) (s : GwState V) (msg : String) :
    GwState V :=
  stopWith t
    { s with ignoreClose := true, clientStops := s.clientStops + 1 }
    (Except.error (GwError.rejected msg))

/-- The `onClose(code, reason)` hook: if `settled || ignoreClose` it returns
immediately; otherwise it settles failure with the close error. -/
def onCloseEvt {V : Type} (t : Nat) (s : GwState V) (code : Nat)
    (reason : String) : GwState V :=
  if s.settled || s.ignoreClose then s
  else stopWith t s (Except.error (GwError.closed code reason))

/-- An asynchronous callback event delivered by the event loop to one
`callGateway` invocation. -/
inductive GwEvent (V : Type) where
  | timerFires : GwEvent V
  | helloOkResolved (v : V) : GwEvent V
  | helloOkRejected (msg : String) : GwEvent V
  | closeFires (code : Nat) (reason : String) : GwEvent V
deriving DecidableEq, Repr

/-- One step of the event loop: dispatch a timestamped event to the handler
the source installs for it. -/
def step {V : Type} (s : GwState V) (te : Nat × GwEvent V) : GwState V :=
  match te.2 with
  | GwEvent.timerFires => onTimeout te.1 s
  | GwEvent.helloOkResolved v => onHelloOkResolved te.1 s v
  | GwEvent.helloOkRejected m => onHelloOkRejected te.1 s m
  | GwEvent.closeFires c r => onCloseEvt te.1 s c r

/-- Execution of one `callGateway` invocation over a finite sequence of
timestamped callback events. -/
def run {V : Type} (tr : List (Nat × GwEvent V)) : GwState V :=
  tr.foldl step (initState V)

/-- The `setTimeout` contract: a timer armed with delay `d` (at time 0,
during setup) never fires earlier than time `d`. -/
def TimerContract {V : Type} (d : Nat) (tr : List (Nat × GwEvent V)) : Prop :=
  ∀ te ∈ tr, te.2 = GwEvent.timerFires → d ≤ te.1

/-- Coupling invariant of the executor state: the timer is cleared exactly
when the promise is settled, and an outcome is recorded exactly when the
promise is settled. -/
def SettleSync {V : Type} (s : GwState V) : Prop :=
  s.timerCleared = s.settled ∧ s.outcome.isSome = s.settled

/-- Modelled from the spec: `PROTOCOL_VERSION`, imported by `callGateway` from
`./protocol/index.js` (not part of the excerpted sources), is "the single
currently-supported protocol version".  The claims use it only symbolically,
so its numeric value is irrelevant here. -/
def PROTOCOL_VERSION : Nat := 1

/-- The `CallGatewayOptions` type of the source, field for field.  Optional
fields (`?:` in TypeScript) are `Option`s; `params` is an opaque payload
modelled as a string. -/
structure CallGatewayOptions where
  url : Option String := none
  token : Option String := none
  password : Option String := none
  method : String
  params : Option String := none
  expectFinal : Option Bool := none
  timeoutMs : Option Nat := none
  clientName : Option String := none
  clientVersion : Option String := none
  platform : Option String := none
  mode : Option String := none
  instanceId : Option String := none
  minProtocol : Option Nat := none
  maxProtocol : Option Nat := none
deriving DecidableEq, Repr

/-- The line `const timeoutMs = opts.timeoutMs ?? 10_000;`: the `??` operator
substitutes the default only when the field is absent. -/
def resolveTimeoutMs (opts : CallGatewayOptions) : Nat :=
  opts.timeoutMs.getD 10000

/-- The configuration record `callGateway` passes to `new GatewayClient`,
restricted to the fields it fills in (the two hooks are modelled separately as
event handlers). -/
structure GatewayClientConfig where
  url : Option String
  token : Option String
  password : Option String
  instanceId : String
  clientName : String
  clientVersion : String
  platform : Option String
  mode : String
  minProtocol : Nat
  maxProtocol : Nat
deriving DecidableEq, Repr

/-- The argument of `new GatewayClient({...})` in `callGateway`, with
`freshUuid` standing for the `randomUUID()` value generated for this
invocation: `instanceId: opts.instanceId ?? randomUUID()`,
`clientName: opts.clientName ?? "cli"`, `clientVersion: opts.clientVersion ??
"dev"`, `mode: opts.mode ?? "cli"`, `minProtocol: opts.minProtocol ??
PROTOCOL_VERSION`, `maxProtocol: opts.maxProtocol ?? PROTOCOL_VERSION`. -/
def buildClientConfig (opts : CallGatewayOptions) (freshUuid : String) :
    GatewayClientConfig :=
  { url := opts.url
    token := opts.token
    password := opts.password
    instanceId := opts.instanceId.getD freshUuid
    clientName := opts.clientName.getD "cli"
    clientVersion := opts.clientVersion.getD "dev"
    platform := opts.platform
    mode := opts.mode.getD "cli"
    minProtocol := opts.minProtocol.getD PROTOCOL_VERSION
    maxProtocol := opts.maxProtocol.getD PROTOCOL_VERSION }

/-- The primitive statements executed synchronously by the promise executor of
`callGateway`, in source order: constructing the client wires both hooks
(`onHelloOk`, `onClose` are fields of the `new GatewayClient({...})`
argument), then `const timer = setTimeout(...)` arms the timer, then
`client.start()` runs. -/
inductive SetupAction where
  | wireOnHelloOk : SetupAction
  | wireOnClose : SetupAction
  | armTimer : SetupAction
  | clientStart : SetupAction
deriving DecidableEq, Repr

/-- The synchronous setup sequence of the promise executor, read off the
source top to bottom: `new GatewayClient({..., onHelloOk, onClose})`;
`const timer = setTimeout(...)`; `client.start()`. -/
def callGatewaySetup : List SetupAction :=
  [SetupAction.wireOnHelloOk, SetupAction.wireOnClose, SetupAction.armTimer,
    SetupAction.clientStart]

/-- The primitive actions a shutdown handler performs, used to state ordering
properties about handler bodies. -/
inductive HandlerAction where
  | setIgnoreClose : HandlerAction
  | clientStop : HandlerAction
  | settle : HandlerAction
deriving DecidableEq, Repr

/-- Statement order of the timer callback:
`ignoreClose = true; client.stop(); stop(new Error("gateway timeout"))`. -/
def timerHandlerOrder : List HandlerAction :=
  [HandlerAction.setIgnoreClose, HandlerAction.clientStop,
    HandlerAction.settle]

/-- Statement order of the resolution branch of `onHelloOk`:
`ignoreClose = true; stop(undefined, result); client.stop()`. -/
def resolveHandlerOrder : List HandlerAction :=
  [HandlerAction.setIgnoreClose, HandlerAction.settle,
    HandlerAction.clientStop]

/-- Statement order of the rejection (`catch`) branch of `onHelloOk`:
`ignoreClose = true; client.stop(); stop(err)`. -/
def rejectHandlerOrder : List HandlerAction :=
  [HandlerAction.setIgnoreClose, HandlerAction.clientStop,
    HandlerAction.settle]

section StateLemmas

variable {V : Type}

lemma stopWith_of_settled {s : GwState V} (t : Nat) (r : Except GwError V)
    (h : s.settled = true) : stopWith t s r = s := by
  unfold stopWith
  simp [h]

lemma stopWith_of_pending {s : GwState V} (t : Nat) (r : Except GwError V)
    (h : s.settled = false) :
    stopWith t s r =
      { s with
        settled := true
        timerCleared := true
        outcome := some r
        settleTime := some t } := by
  unfold stopWith
  simp [h]

lemma stopWith_settled (t : Nat) (s : GwState V) (r : Except GwError V) :
    (stopWith t s r).settled = true := by
  unfold stopWith
  split <;> simp_all

lemma stopWith_ignoreClose (t : Nat) (s : GwState V) (r : Except GwError V) :
    (stopWith t s r).ignoreClose = s.ignoreClose := by
  unfold stopWith
  split <;> rfl

lemma stopWith_clientStops (t : Nat) (s : GwState V) (r : Except GwError V) :
    (stopWith t s r).clientStops = s.clientStops := by
  unfold stopWith
  split <;> rfl

/-- Once settled, no later callback can change the recorded outcome, the
settlement time, or un-settle the promise. -/
lemma step_preserves_settled {s : GwState V} (te : Nat × GwEvent V)
    (h : s.settled = true) :
    (step s te).settled = true ∧ (step s te).outcome = s.outcome ∧
      (step s te).settleTime = s.settleTime := by
  obtain ⟨t, e⟩ := te
  cases e <;>
    simp only [step, onTimeout, onHelloOkResolved, onHelloOkRejected,
      onCloseEvt, stopWith, h] <;>
    split <;> simp_all

/-- The `ignoreClose` flag is monotone: no callback ever resets it. -/
lemma step_ignoreClose_mono {s : GwState V} (te : Nat × GwEvent V)
    (h : s.ignoreClose = true) : (step s te).ignoreClose = true := by
  obtain ⟨t, e⟩ := te
  cases e <;>
    simp only [step, onTimeout, onHelloOkResolved, onHelloOkRejected,
      onCloseEvt, stopWith, h] <;>
    split_ifs <;> simp_all

lemma settleSync_init : SettleSync (initState V) := by
  constructor <;> rfl

lemma settleSync_step {s : GwState V} (te : Nat × GwEvent V)
    (h : SettleSync s) : SettleSync (step s te) := by
  obtain ⟨h1, h2⟩ := h
  obtain ⟨t, e⟩ := te
  cases e <;>
    simp only [step, onTimeout, onHelloOkResolved, onHelloOkRejected,
      onCloseEvt, stopWith, SettleSync] <;>
    split_ifs <;> simp_all

lemma settleSync_foldl {s : GwState V} (tr : List (Nat × GwEvent V))
    (h : SettleSync s) : SettleSync (tr.foldl step s) := by
  induction tr generalizing s with
  | nil => exact h
  | cons te tr ih => exact ih (settleSync_step te h)

lemma settleSync_run (tr : List (Nat × GwEvent V)) : SettleSync (run tr) :=
  settleSync_foldl tr settleSync_init

lemma foldl_preserves_settled {s : GwState V} (tr : List (Nat × GwEvent V))
    (h : s.settled = true) :
    (tr.foldl step s).settled = true ∧ (tr.foldl step s).outcome = s.outcome := by
  induction tr generalizing s with
  | nil => exact ⟨h, rfl⟩
  | cons te tr ih =>
      obtain ⟨hs, ho, _⟩ := step_preserves_settled te h
      obtain ⟨hs2, ho2⟩ := ih hs
      exact ⟨hs2, ho2.trans ho⟩

/-- A timer event delivered to a state satisfying the coupling invariant
always leaves the promise settled: either it was settled already, or the
timer was not yet cleared and the handler settles it. -/
lemma timer_step_settles {s : GwState V} (t : Nat) (h : SettleSync s) :
    (step s (t, GwEvent.timerFires)).settled = true := by
  by_cases hs : s.settled = true
  · exact (step_preserves_settled _ hs).1
  · have hcl : s.timerCleared = false := by
      simp only [Bool.not_eq_true] at hs
      exact h.1.trans hs
    simp only [step, onTimeout, hcl, Bool.false_eq_true, if_false]
    exact stopWith_settled _ _ _

/-- Step preservation of the timeout-path invariant: if a timeout outcome is
only ever recorded at a time at least `d` alongside at least one
`client.stop()` call, any single callback respecting the `setTimeout`
contract preserves that. -/
lemma timeout_step_inv {d : Nat} {s : GwState V} (te : Nat × GwEvent V)
    (hte : te.2 = GwEvent.timerFires → d ≤ te.1)
    (hs : s.outcome = some (Except.error GwError.timeout) →
      ∃ t0, s.settleTime = some t0 ∧ d ≤ t0 ∧ 1 ≤ s.clientStops) :
    (step s te).outcome = some (Except.error GwError.timeout) →
      ∃ t0, (step s te).settleTime = some t0 ∧ d ≤ t0 ∧
        1 ≤ (step s te).clientStops := by
  obtain ⟨t, e⟩ := te
  cases e with
  | timerFires =>
      by_cases hcl : s.timerCleared = true
      · simpa [step, onTimeout, hcl] using hs
      · by_cases hsd : s.settled = true
        · simp only [step, onTimeout, hcl, Bool.false_eq_true, if_false,
            stopWith, hsd, if_true]
          intro h
          obtain ⟨t0, h1, h2, h3⟩ := hs h
          exact ⟨t0, h1, h2, by omega⟩
        · simp only [step, onTimeout, hcl, Bool.false_eq_true, if_false,
            stopWith, hsd]
          intro _
          exact ⟨t, rfl, hte rfl, by omega⟩
  | helloOkResolved v =>
      by_cases hsd : s.settled = true
      · simp only [step, onHelloOkResolved, stopWith, hsd, if_true]
        intro h
        obtain ⟨t0, h1, h2, h3⟩ := hs h
        exact ⟨t0, h1, h2, by omega⟩
      · simp only [step, onHelloOkResolved, stopWith, hsd]
        intro h
        simp at h
  | helloOkRejected m =>
      by_cases hsd : s.settled = true
      · simp only [step, onHelloOkRejected, stopWith, hsd, if_true]
        intro h
        obtain ⟨t0, h1, h2, h3⟩ := hs h
        exact ⟨t0, h1, h2, by omega⟩
      · simp only [step, onHelloOkRejected, stopWith, hsd]
        intro h
        simp at h
  | closeFires c r =>
      by_cases hg : (s.settled || s.ignoreClose) = true
      · simpa [step, onCloseEvt, hg] using hs
      · have hsd : s.settled = false ∧ s.ignoreClose = false := by
          simp only [Bool.or_eq_true, not_or, Bool.not_eq_true] at hg
          exact hg
        simp only [step, onCloseEvt, hsd.1, hsd.2, Bool.or_self,
          Bool.false_eq_true, if_false, stopWith]
        intro h
        simp at h

/-- Trace version of the timeout-path invariant. -/
lemma timeout_inv_foldl {d : Nat} (tr : List (Nat × GwEvent V))
    {s : GwState V}
    (hc : ∀ te ∈ tr, te.2 = GwEvent.timerFires → d ≤ te.1)
    (hs : s.outcome = some (Except.error GwError.timeout) →
      ∃ t0, s.settleTime = some t0 ∧ d ≤ t0 ∧ 1 ≤ s.clientStops) :
    (tr.foldl step s).outcome = some (Except.error GwError.timeout) →
      ∃ t0, (tr.foldl step s).settleTime = some t0 ∧ d ≤ t0 ∧
        1 ≤ (tr.foldl step s).clientStops := by
  induction tr generalizing s with
  | nil => exact hs
  | cons te tr ih =>
      exact ih (fun te' h' => hc te' (List.mem_cons_of_mem _ h'))
        (timeout_step_inv te (hc te (List.mem_cons_self _ _)) hs)

end StateLemmas

/-- C1: every `callGateway` invocation settles exactly once.  An execution
trace of one invocation always contains the armed timer's firing event (the
event loop delivers it unless `clearTimeout` ran, and `clearTimeout` runs only
upon settlement, in which case the promise is already settled); after that
event the promise is settled with a recorded outcome — a value or exactly one
`GwError` — and no later event (a further timer tick, the request resolving or
rejecting, or a close notification) ever changes that recorded outcome. -/
theorem callGateway_settles_exactly_once (V : Type) (t : Nat)
    (tr tr2 : List (Nat × GwEvent V)) :
    ((run (tr ++ [(t, GwEvent.timerFires)])).outcome).isSome = true ∧
    (run (tr ++ [(t, GwEvent.timerFires)] ++ tr2)).outcome =
      (run (tr ++ [(t, GwEvent.timerFires)])).outcome := by
  have hrun : run (tr ++ [(t, GwEvent.timerFires)]) =
      step (run tr) (t, GwEvent.timerFires) := by
    simp [run, List.foldl_append]
  have hset : (run (tr ++ [(t, GwEvent.timerFires)])).settled = true := by
    rw [hrun]
    exact timer_step_settles t (settleSync_run tr)
  refine ⟨?_, ?_⟩
  · exact ((settleSync_run (tr ++ [(t, GwEvent.timerFires)])).2).trans hset
  · have : run (tr ++ [(t, GwEvent.timerFires)] ++ tr2) =
        tr2.foldl step (run (tr ++ [(t, GwEvent.timerFires)])) := by
      simp [run, List.foldl_append]
    rw [this]
    exact (foldl_preserves_settled tr2 hset).2

/-- C2 counterexample: an unexpected close settles the call without any
`client.stop()` call.  Running a single close event from the initial state
settles the promise with the close error while `clientStops` stays `0` — the
`onClose` handler only invokes the local settle closure, never
`client.stop()`, so "the client is stopped exactly once via an explicit call
on every exit path" fails on the unexpected-close path. -/
theorem callGateway_close_path_no_clientStop :
    (run [((5 : Nat), (GwEvent.closeFires 1006 "abnormal" : GwEvent Nat))]).settled
        = true ∧
    (run [((5 : Nat), (GwEvent.closeFires 1006 "abnormal" : GwEvent Nat))]).outcome
        = some (Except.error (GwError.closed 1006 "abnormal")) ∧
    (run [((5 : Nat), (GwEvent.closeFires 1006 "abnormal" : GwEvent Nat))]).clientStops
        = 0 :=
  ⟨rfl, rfl, rfl⟩

/-- C2 (amended): on the timeout, request-resolution and request-rejection
exit paths the handler calls `client.stop()` exactly once; the
unexpected-close path performs no `client.stop()` call (the socket is already
closed); and on settlement via any path the timer is cleared. -/
theorem callGateway_clientStop_per_path (V : Type) (s : GwState V)
    (t c : Nat) (v : V) (m r : String) (tr : List (Nat × GwEvent V))
    (hcl : s.timerCleared = false) (hset : (run tr).settled = true) :
    (onTimeout t s).clientStops = s.clientStops + 1 ∧
    (onHelloOkResolved t s v).clientStops = s.clientStops + 1 ∧
    (onHelloOkRejected t s m).clientStops = s.clientStops + 1 ∧
    (onCloseEvt t s c r).clientStops = s.clientStops ∧
    (run tr).timerCleared = true := by
  refine ⟨?_, ?_, ?_, ?_, ?_⟩
  · simp only [onTimeout, hcl, Bool.false_eq_true, if_false]
    exact stopWith_clientStops _ _ _
  · simp only [onHelloOkResolved]
    rw [stopWith_clientStops]
  · simp only [onHelloOkRejected]
    rw [stopWith_clientStops]
  · simp only [onCloseEvt]
    split
    · rfl
    · exact stopWith_clientStops _ _ _
  · exact (settleSync_run tr).1.trans hset

/-- Witness for the amended C2 at the initial state and a trace settled by a
request resolution. -/
theorem callGateway_clientStop_per_path_witness :
    (onTimeout 4 (initState Nat)).clientStops =
      (initState Nat).clientStops + 1 ∧
    (onHelloOkResolved 4 (initState Nat) 7).clientStops =
      (initState Nat).clientStops + 1 ∧
    (onHelloOkRejected 4 (initState Nat) "err").clientStops =
      (initState Nat).clientStops + 1 ∧
    (onCloseEvt 4 (initState Nat) 1000 "bye").clientStops =
      (initState Nat).clientStops ∧
    (run [((2 : Nat), (GwEvent.helloOkResolved 7 : GwEvent Nat))]).timerCleared
      = true :=
  callGateway_clientStop_per_path Nat (initState Nat) 4 1000 7 "err" "bye"
    [(2, GwEvent.helloOkResolved 7)] rfl rfl

/-- C3: on each self-initiated shutdown path (the timer callback, the
resolution branch of `onHelloOk`, and its rejection branch), the statement
`ignoreClose = true` appears strictly before the `client.stop()` call in the
handler body, never after. -/
theorem callGateway_ignoreClose_before_clientStop :
    timerHandlerOrder.indexOf HandlerAction.setIgnoreClose <
      timerHandlerOrder.indexOf HandlerAction.clientStop ∧
    resolveHandlerOrder.indexOf HandlerAction.setIgnoreClose <
      resolveHandlerOrder.indexOf HandlerAction.clientStop ∧
    rejectHandlerOrder.indexOf HandlerAction.setIgnoreClose <
      rejectHandlerOrder.indexOf HandlerAction.clientStop := by
  decide

/-- C4: in the `onHelloOk` handler, if the issued request's promise resolves
with `v`, the orchestrator sets the ignore-close flag, calls `client.stop()`
once, and settles success with exactly `v`; if it rejects with error `m`, the
orchestrator sets the ignore-close flag, calls `client.stop()` once, and
settles failure with exactly that error, unchanged. -/
theorem callGateway_helloOk_settlement (V : Type) (s : GwState V) (t : Nat)
    (v : V) (m : String) (h : s.settled = false) :
    ((onHelloOkResolved t s v).ignoreClose = true ∧
      (onHelloOkResolved t s v).clientStops = s.clientStops + 1 ∧
      (onHelloOkResolved t s v).outcome = some (Except.ok v)) ∧
    ((onHelloOkRejected t s m).ignoreClose = true ∧
      (onHelloOkRejected t s m).clientStops = s.clientStops + 1 ∧
      (onHelloOkRejected t s m).outcome =
        some (Except.error (GwError.rejected m))) := by
  constructor <;>
    simp only [onHelloOkResolved, onHelloOkRejected, stopWith, h] <;>
    simp

/-- Witness for C4 at a concrete pending state. -/
theorem callGateway_helloOk_settlement_witness :
    ((onHelloOkResolved 5 (initState Nat) 42).ignoreClose = true ∧
      (onHelloOkResolved 5 (initState Nat) 42).clientStops =
        (initState Nat).clientStops + 1 ∧
      (onHelloOkResolved 5 (initState Nat) 42).outcome =
        some (Except.ok 42)) ∧
    ((onHelloOkRejected 5 (initState Nat) "boom").ignoreClose = true ∧
      (onHelloOkRejected 5 (initState Nat) "boom").clientStops =
        (initState Nat).clientStops + 1 ∧
      (onHelloOkRejected 5 (initState Nat) "boom").outcome =
        some (Except.error (GwError.rejected "boom"))) :=
  callGateway_helloOk_settlement Nat (initState Nat) 5 42 "boom" rfl

/-- C5: behaviour of the `onClose(code, reason)` hook — if the promise is
already settled or the ignore-close flag is set, the handler is a no-op (no
settlement attempt, no error); otherwise it settles the promise as a failure
carrying the close code and reason. -/
theorem callGateway_onClose_behavior (V : Type) (s : GwState V) (t c : Nat)
    (r : String) :
    (s.settled = true → onCloseEvt t s c r = s) ∧
    (s.ignoreClose = true → onCloseEvt t s c r = s) ∧
    (s.settled = false → s.ignoreClose = false →
      (onCloseEvt t s c r).settled = true ∧
      (onCloseEvt t s c r).outcome =
        some (Except.error (GwError.closed c r))) := by
  refine ⟨fun h => ?_, fun h => ?_, fun h1 h2 => ?_⟩
  · simp [onCloseEvt, h]
  · simp [onCloseEvt, h]
  · simp [onCloseEvt, h1, h2, stopWith]

/-- Witness for C5: a settled state and a flagged state are left untouched by
a close event; a pending unflagged state settles with the close error. -/
theorem callGateway_onClose_behavior_witness :
    (onCloseEvt 9 (⟨true, false, true, 1, some (Except.ok 7), some 4⟩ :
        GwState Nat) 1006 "gone" =
      ⟨true, false, true, 1, some (Except.ok 7), some 4⟩) ∧
    (onCloseEvt 9 (⟨false, true, false, 1, none, none⟩ : GwState Nat)
        1006 "gone" =
      ⟨false, true, false, 1, none, none⟩) ∧
    ((onCloseEvt 9 (initState Nat) 1006 "gone").settled = true ∧
      (onCloseEvt 9 (initState Nat) 1006 "gone").outcome =
        some (Except.error (GwError.closed 1006 "gone"))) :=
  ⟨(callGateway_onClose_behavior Nat _ 9 1006 "gone").1 rfl,
    (callGateway_onClose_behavior Nat _ 9 1006 "gone").2.1 rfl,
    (callGateway_onClose_behavior Nat (initState Nat) 9 1006 "gone").2.2
      rfl rfl⟩

/-- C8: in the promise executor of `callGateway`, `client.start()` is the
last synchronous setup statement — it runs exactly once, after both hooks are
wired (at client construction) and after the timer is armed. -/
theorem callGateway_start_is_last :
    callGatewaySetup.getLast? = some SetupAction.clientStart ∧
    callGatewaySetup.indexOf SetupAction.wireOnHelloOk <
      callGatewaySetup.indexOf SetupAction.clientStart ∧
    callGatewaySetup.indexOf SetupAction.wireOnClose <
      callGatewaySetup.indexOf SetupAction.clientStart ∧
    callGatewaySetup.indexOf SetupAction.armTimer <
      callGatewaySetup.indexOf SetupAction.clientStart ∧
    callGatewaySetup.count SetupAction.clientStart = 1 := by
  decide

/-- C10: the ignore-close flag is monotone — it starts `false`, every
assignment in the source sets it to `true` and none resets it, so once any
self-initiated shutdown path has run, every later close notification for this
invocation leaves the state completely unchanged. -/
theorem callGateway_ignoreClose_monotone (V : Type) (s : GwState V)
    (te : Nat × GwEvent V) (t c : Nat) (r : String)
    (h : s.ignoreClose = true) :
    (initState V).ignoreClose = false ∧
    (step s te).ignoreClose = true ∧
    onCloseEvt t s c r = s := by
  refine ⟨rfl, step_ignoreClose_mono te h, ?_⟩
  simp [onCloseEvt, h]

/-- Witness for C10 at a concrete flagged state. -/
theorem callGateway_ignoreClose_monotone_witness :
    (initState Nat).ignoreClose = false ∧
    (step (⟨false, true, false, 1, none, none⟩ : GwState Nat)
      (3, GwEvent.closeFires 1006 "x")).ignoreClose = true ∧
    onCloseEvt 3 (⟨false, true, false, 1, none, none⟩ : GwState Nat)
        1006 "x" =
      ⟨false, true, false, 1, none, none⟩ :=
  callGateway_ignoreClose_monotone Nat _ (3, GwEvent.closeFires 1006 "x")
    3 1006 "x" rfl

/-- C6: if a trace respects the `setTimeout` contract for the armed delay
`resolveTimeoutMs opts` (the timer cannot fire earlier than that delay) and
the invocation settled as a timeout failure, then the settlement happened no
earlier than `resolveTimeoutMs opts` after arming, and at least one
`client.stop()` call was made on that path (the connection is not left open);
the recorded outcome is the bare timeout error, carrying no partial result
value. -/
theorem callGateway_timeout_after_deadline (V : Type)
    (opts : CallGatewayOptions) (tr : List (Nat × GwEvent V))
    (hc : TimerContract (resolveTimeoutMs opts) tr)
    (hout : (run tr).outcome = some (Except.error GwError.timeout)) :
    ∃ t0, (run tr).settleTime = some t0 ∧ resolveTimeoutMs opts ≤ t0 ∧
      1 ≤ (run tr).clientStops :=
  timeout_inv_foldl tr hc (fun h => Option.noConfusion h) hout

/-- Witness for C6 with a seven-millisecond deadline and the timer firing at
time seven. -/
theorem callGateway_timeout_after_deadline_witness :
    ∃ t0,
      (run [((7 : Nat), (GwEvent.timerFires : GwEvent Nat))]).settleTime =
        some t0 ∧
      resolveTimeoutMs { method := "ping", timeoutMs := some 7 } ≤ t0 ∧
      1 ≤ (run [((7 : Nat), (GwEvent.timerFires : GwEvent Nat))]).clientStops :=
  callGateway_timeout_after_deadline Nat
    { method := "ping", timeoutMs := some 7 }
    [(7, GwEvent.timerFires)]
    (fun te h _ => by
      rcases List.mem_singleton.mp h with rfl
      exact Nat.le_refl 7)
    rfl

/-- C7: each omitted option of `callGateway` takes its documented default —
`timeoutMs` becomes 10 000, `instanceId` becomes the freshly generated
`randomUUID()` token, `clientName` becomes `"cli"`, `clientVersion` becomes
`"dev"`, `mode` becomes `"cli"`, and both `minProtocol` and `maxProtocol`
collapse to `PROTOCOL_VERSION` unless overridden. -/
theorem callGateway_option_defaults (opts : CallGatewayOptions) (u : String) :
    (opts.timeoutMs = none → resolveTimeoutMs opts = 10000) ∧
    (opts.instanceId = none → (buildClientConfig opts u).instanceId = u) ∧
    (opts.clientName = none → (buildClientConfig opts u).clientName = "cli") ∧
    (opts.clientVersion = none →
      (buildClientConfig opts u).clientVersion = "dev") ∧
    (opts.mode = none → (buildClientConfig opts u).mode = "cli") ∧
    (opts.minProtocol = none →
      (buildClientConfig opts u).minProtocol = PROTOCOL_VERSION) ∧
    (opts.maxProtocol = none →
      (buildClientConfig opts u).maxProtocol = PROTOCOL_VERSION) := by
  refine ⟨fun h => ?_, fun h => ?_, fun h => ?_, fun h => ?_, fun h => ?_,
    fun h => ?_, fun h => ?_⟩ <;>
    simp [resolveTimeoutMs, buildClientConfig, h]

/-- Witness for C7 at an options value that supplies only the mandatory
method name. -/
theorem callGateway_option_defaults_witness :
    resolveTimeoutMs { method := "ping" } = 10000 ∧
    (buildClientConfig { method := "ping" } "uuid-1").instanceId = "uuid-1" ∧
    (buildClientConfig { method := "ping" } "uuid-1").clientName = "cli" ∧
    (buildClientConfig { method := "ping" } "uuid-1").clientVersion = "dev" ∧
    (buildClientConfig { method := "ping" } "uuid-1").mode = "cli" ∧
    (buildClientConfig { method := "ping" } "uuid-1").minProtocol =
      PROTOCOL_VERSION ∧
    (buildClientConfig { method := "ping" } "uuid-1").maxProtocol =
      PROTOCOL_VERSION :=
  ⟨(callGateway_option_defaults { method := "ping" } "uuid-1").1 rfl,
    (callGateway_option_defaults { method := "ping" } "uuid-1").2.1 rfl,
    (callGateway_option_defaults { method := "ping" } "uuid-1").2.2.1 rfl,
    (callGateway_option_defaults { method := "ping" } "uuid-1").2.2.2.1 rfl,
    (callGateway_option_defaults { method := "ping" } "uuid-1").2.2.2.2.1 rfl,
    (callGateway_option_defaults { method := "ping" } "uuid-1").2.2.2.2.2.1
      rfl,
    (callGateway_option_defaults { method := "ping" } "uuid-1").2.2.2.2.2.2
      rfl⟩

/-- C9: the 10 000 ms default is substituted only when `timeoutMs` is absent
(the `??` operator): any explicitly supplied value — including 0 — is used
as the armed delay, and with delay `t` the timer may fire at time `t` and
settle the call as a timeout failure, so `timeoutMs: 0` arms an
immediately-firing timer instead of disabling the deadline. -/
theorem callGateway_timeout_zero_not_disabled (opts : CallGatewayOptions)
    (t : Nat) (h : opts.timeoutMs = some t) :
    resolveTimeoutMs opts = t ∧
    TimerContract (resolveTimeoutMs opts)
      ([(t, GwEvent.timerFires)] : List (Nat × GwEvent Nat)) ∧
    (run ([(t, GwEvent.timerFires)] : List (Nat × GwEvent Nat))).outcome =
      some (Except.error GwError.timeout) := by
  have h1 : resolveTimeoutMs opts = t := by
    simp [resolveTimeoutMs, h]
  refine ⟨h1, ?_, rfl⟩
  intro te hm _
  rcases List.mem_singleton.mp hm with rfl
  exact h1.le

/-- Witness for C9 with `timeoutMs: 0`. -/
theorem callGateway_timeout_zero_not_disabled_witness :
    resolveTimeoutMs { method := "ping", timeoutMs := some 0 } = 0 ∧
    TimerContract
      (resolveTimeoutMs { method := "ping", timeoutMs := some 0 })
      ([(0, GwEvent.timerFires)] : List (Nat × GwEvent Nat)) ∧
    (run ([(0, GwEvent.timerFires)] : List (Nat × GwEvent Nat))).outcome =
      some (Except.error GwError.timeout) :=
  callGateway_timeout_zero_not_disabled
    { method := "ping", timeoutMs := some 0 } 0 rfl

end Moltbot
